import Mathlib

/-!
A verification development for the synthetic sensor-data generator
(`tests/e2e/synthetic_data_generator.py` of the Predictive Asset Health
repository).  The Python source is embedded shallowly:

* sensor values are real numbers (`ℝ`); the configuration tables carry
  rational literals, which embed the decimal float literals of the source
  exactly;
* the `dict` of sensor values is an association list `List (SensorName × ℝ)`,
  preserving insertion order as Python dicts do;
* every random draw (`random.gauss`, `random.uniform`, `random.random`,
  `random.choice`) is threaded as an explicit oracle argument, so each
  function is a pure function of its inputs and the drawn values;
* Python exceptions (`ZeroDivisionError` from `i % (total_points // 10)`,
  uncaught producer errors) are modelled with `Except String`;
* Python truthiness tests on `Optional` fields (`if asset.failure_mode and
  asset.failure_start_hours:`) are modelled exactly: `None`, the empty
  string and the number `0` are falsy.
-/

namespace SynthGen

/-- The sensor tags that occur in `sensor_configs`. -/
inductive SensorName where
  | vibration_vel_mm_s
  | bearing_temp_c
  | motor_current_a
  | discharge_pressure_bar
  | ambient_temp_c
deriving DecidableEq, Repr

/-- Data-quality tags attached to an emitted reading. -/
inductive Quality where
  | GOOD
  | BAD
  | SUSPECT
  | NO_DATA
deriving DecidableEq, Repr

/-- Per-sensor static parameters from `sensor_configs`:
`{'base': .., 'noise': .., 'range': (lo, hi)}`. -/
structure SensorParams where
  base : ℚ
  noise : ℚ
  rangeMin : ℚ
  rangeMax : ℚ
deriving DecidableEq, Repr

/-- The `AssetConfig` dataclass of the source.  `failure_start_hours` is an
optional number (hours), `failure_severity` defaults to `1.0`. -/
structure AssetConfig where
  asset_id : String
  plant : String
  asset_class : String
  vendor : String
  failure_mode : Option String := none
  failure_start_hours : Option ℚ := none
  failure_severity : ℝ := 1

/-- The three failure-mode classes registered in `self.failure_modes`. -/
inductive FailureModeKind where
  | bearing_wear
  | misalignment
  | cavitation
deriving DecidableEq, Repr

/-- A Python dict of sensor readings, as an insertion-ordered association list. -/
abbrev BaseValues := List (SensorName × ℝ)

/-- `m[k]` for the sensor dict: first entry with the given key. -/
def lookupVal : BaseValues → SensorName → Option ℝ
  | [], _ => none
  | p :: rest, k => if p.1 = k then some p.2 else lookupVal rest k

/-- `if k in m: m[k] = f m[k]` — modify the value at `k` in place when the key
is present; leave the dict unchanged otherwise. -/
def updateVal (m : BaseValues) (k : SensorName) (f : ℝ → ℝ) : BaseValues :=
  m.map (fun p => if p.1 = k then (p.1, f p.2) else p)

/-- `BearingWearFailure.apply`: progressive degradation; ramps linearly to full
effect over 240 hours, adds to vibration velocity and bearing temperature. -/
noncomputable def BearingWearFailure.apply (severity : ℝ) (timestamp : ℝ)
    (base_values : BaseValues) : BaseValues :=
  let hours_since_start := timestamp / 3600
  let degradation_factor := min 1 (hours_since_start / 240)
  updateVal
    (updateVal base_values SensorName.vibration_vel_mm_s
      (fun v => v + (5 + 10 * degradation_factor) * severity))
    SensorName.bearing_temp_c
    (fun v => v + (10 + 20 * degradation_factor) * severity)

/-- `MisalignmentFailure.apply`: constant additive offsets (step onset). -/
noncomputable def MisalignmentFailure.apply (severity : ℝ) (_timestamp : ℝ)
    (base_values : BaseValues) : BaseValues :=
  updateVal
    (updateVal base_values SensorName.vibration_vel_mm_s
      (fun v => v + 3 * severity))
    SensorName.bearing_temp_c
    (fun v => v + 5 * severity)

/-- `CavitationFailure.apply`: `u1` is the `random.uniform(0, 5)` draw and
`u2` the `random.uniform(-5, 5)` draw made inside the call. -/
noncomputable def CavitationFailure.apply (severity u1 u2 : ℝ) (_timestamp : ℝ)
    (base_values : BaseValues) : BaseValues :=
  updateVal
    (updateVal
      (updateVal base_values SensorName.discharge_pressure_bar
        (fun v => v * (1 - 0.3 * severity)))
      SensorName.vibration_vel_mm_s
      (fun v => v + u1 * severity))
    SensorName.motor_current_a
    (fun v => v + u2 * severity)

/-- Dispatch over the failure-mode variants.  `none` is the base-class
`FailureMode.apply`, which returns the dict unchanged. -/
noncomputable def FailureMode.apply (kind : Option FailureModeKind)
    (severity u1 u2 : ℝ) (timestamp : ℝ) (base_values : BaseValues) : BaseValues :=
  match kind with
  | none => base_values
  | some FailureModeKind.bearing_wear =>
      BearingWearFailure.apply severity timestamp base_values
  | some FailureModeKind.misalignment =>
      MisalignmentFailure.apply severity timestamp base_values
  | some FailureModeKind.cavitation =>
      CavitationFailure.apply severity u1 u2 timestamp base_values

/-- The sensor keys a failure-mode variant touches (`if key in modified`). -/
def recognizedKeys (kind : Option FailureModeKind) : List SensorName :=
  match kind with
  | none => []
  | some FailureModeKind.bearing_wear =>
      [SensorName.vibration_vel_mm_s, SensorName.bearing_temp_c]
  | some FailureModeKind.misalignment =>
      [SensorName.vibration_vel_mm_s, SensorName.bearing_temp_c]
  | some FailureModeKind.cavitation =>
      [SensorName.discharge_pressure_bar, SensorName.vibration_vel_mm_s,
        SensorName.motor_current_a]

theorem lookupVal_updateVal_same (m : BaseValues) (k : SensorName) (f : ℝ → ℝ) :
    lookupVal (updateVal m k f) k = (lookupVal m k).map f := by
  induction m with
  | nil => rfl
  | cons p rest ih =>
      obtain ⟨a, b⟩ := p
      by_cases h : a = k
      · simp [lookupVal, updateVal, h]
      · simpa [lookupVal, updateVal, h] using ih

theorem lookupVal_updateVal_other (m : BaseValues) (k k' : SensorName)
    (f : ℝ → ℝ) (h : k' ≠ k) :
    lookupVal (updateVal m k f) k' = lookupVal m k' := by
  induction m with
  | nil => rfl
  | cons p rest ih =>
      obtain ⟨a, b⟩ := p
      by_cases hp : a = k
      · have hkk' : ¬ k = k' := fun hc => h hc.symm
        simpa [lookupVal, updateVal, hp, hkk'] using ih
      · by_cases hq : a = k'
        · simp [lookupVal, updateVal, hp, hq, h]
        · simpa [lookupVal, updateVal, hp, hq] using ih

theorem updateVal_map_fst (m : BaseValues) (k : SensorName) (f : ℝ → ℝ) :
    (updateVal m k f).map Prod.fst = m.map Prod.fst := by
  induction m with
  | nil => rfl
  | cons p rest ih =>
      by_cases h : p.1 = k
      · simpa [updateVal, h] using ih
      · simpa [updateVal, h] using ih

/-- C9: every failure-mode variant is a pure transform: the key set (and its
order) is preserved, and any key the variant does not recognize keeps exactly
the value it had in the input dict. -/
theorem failure_apply_passthrough (kind : Option FailureModeKind)
    (severity u1 u2 timestamp : ℝ) (m : BaseValues) :
    (FailureMode.apply kind severity u1 u2 timestamp m).map Prod.fst = m.map Prod.fst ∧
    ∀ k : SensorName, k ∉ recognizedKeys kind →
      lookupVal (FailureMode.apply kind severity u1 u2 timestamp m) k = lookupVal m k := by
  cases kind with
  | none => exact ⟨rfl, fun k _ => rfl⟩
  | some kk =>
      cases kk with
      | bearing_wear =>
          constructor
          · simp [FailureMode.apply, BearingWearFailure.apply, updateVal_map_fst]
          · intro k hk
            simp only [recognizedKeys, List.mem_cons, List.not_mem_nil, or_false,
              not_or] at hk
            simp [FailureMode.apply, BearingWearFailure.apply,
              lookupVal_updateVal_other _ _ _ _ hk.2,
              lookupVal_updateVal_other _ _ _ _ hk.1]
      | misalignment =>
          constructor
          · simp [FailureMode.apply, MisalignmentFailure.apply, updateVal_map_fst]
          · intro k hk
            simp only [recognizedKeys, List.mem_cons, List.not_mem_nil, or_false,
              not_or] at hk
            simp [FailureMode.apply, MisalignmentFailure.apply,
              lookupVal_updateVal_other _ _ _ _ hk.2,
              lookupVal_updateVal_other _ _ _ _ hk.1]
      | cavitation =>
          constructor
          · simp [FailureMode.apply, CavitationFailure.apply, updateVal_map_fst]
          · intro k hk
            simp only [recognizedKeys, List.mem_cons, List.not_mem_nil, or_false,
              not_or] at hk
            simp [FailureMode.apply, CavitationFailure.apply,
              lookupVal_updateVal_other _ _ _ _ hk.2.2,
              lookupVal_updateVal_other _ _ _ _ hk.2.1,
              lookupVal_updateVal_other _ _ _ _ hk.1]

/-- Witness for C9 at a concrete input: `ambient_temp_c` is not recognized by
`BearingWearFailure`, and its value `25` passes through unchanged. -/
theorem failure_apply_passthrough_witness :
    SensorName.ambient_temp_c ∉ recognizedKeys (some FailureModeKind.bearing_wear) ∧
    lookupVal
      (FailureMode.apply (some FailureModeKind.bearing_wear) 1 0 0 7200
        [(SensorName.ambient_temp_c, (25 : ℝ))])
      SensorName.ambient_temp_c
      = lookupVal [(SensorName.ambient_temp_c, (25 : ℝ))] SensorName.ambient_temp_c :=
  ⟨by decide,
    (failure_apply_passthrough (some FailureModeKind.bearing_wear) 1 0 0 7200
      [(SensorName.ambient_temp_c, (25 : ℝ))]).2
      SensorName.ambient_temp_c (by decide)⟩

/-- C7: the exact additive terms of `BearingWearFailure.apply`.  `timestamp`
is the elapsed time in seconds since onset; with `h = timestamp / 3600` hours,
the vibration term is `(5 + 10 * min 1 (h / 240)) * severity` and the
temperature term `(10 + 20 * min 1 (h / 240)) * severity`; once `h ≥ 240`
these are exactly `15 * severity` and `30 * severity`. -/
theorem bearing_wear_terms (severity timestamp : ℝ) (m : BaseValues) (v w : ℝ)
    (hv : lookupVal m SensorName.vibration_vel_mm_s = some v)
    (hw : lookupVal m SensorName.bearing_temp_c = some w) :
    ((240 ≤ timestamp / 3600 →
      lookupVal (BearingWearFailure.apply severity timestamp m)
          SensorName.vibration_vel_mm_s = some (v + 15 * severity) ∧
      lookupVal (BearingWearFailure.apply severity timestamp m)
          SensorName.bearing_temp_c = some (w + 30 * severity)) ∧
    (timestamp / 3600 < 240 →
      lookupVal (BearingWearFailure.apply severity timestamp m)
          SensorName.vibration_vel_mm_s
        = some (v + (5 + 10 * (timestamp / 3600) / 240) * severity) ∧
      lookupVal (BearingWearFailure.apply severity timestamp m)
          SensorName.bearing_temp_c
        = some (w + (10 + 20 * (timestamp / 3600) / 240) * severity))) := by
  have hvib :
      lookupVal (BearingWearFailure.apply severity timestamp m)
          SensorName.vibration_vel_mm_s
        = some (v + (5 + 10 * min 1 (timestamp / 3600 / 240)) * severity) := by
    unfold BearingWearFailure.apply
    rw [lookupVal_updateVal_other _ _ _ _ (by decide),
      lookupVal_updateVal_same, hv]
    rfl
  have htemp :
      lookupVal (BearingWearFailure.apply severity timestamp m)
          SensorName.bearing_temp_c
        = some (w + (10 + 20 * min 1 (timestamp / 3600 / 240)) * severity) := by
    unfold BearingWearFailure.apply
    rw [lookupVal_updateVal_same,
      lookupVal_updateVal_other _ _ _ _ (by decide), hw]
    rfl
  constructor
  · intro h240
    have hmin : min 1 (timestamp / 3600 / 240) = 1 := by
      have : (1 : ℝ) ≤ timestamp / 3600 / 240 := by
        rw [le_div_iff₀ (by norm_num : (0 : ℝ) < 240)]
        linarith
      exact min_eq_left this
    constructor
    · rw [hvib, hmin]; norm_num
    · rw [htemp, hmin]; norm_num
  · intro h240
    have hmin : min 1 (timestamp / 3600 / 240) = timestamp / 3600 / 240 := by
      have : timestamp / 3600 / 240 ≤ 1 := by
        rw [div_le_iff₀ (by norm_num : (0 : ℝ) < 240)]
        linarith
      exact min_eq_right this
    constructor
    · rw [hvib, hmin]; ring_nf
    · rw [htemp, hmin]; ring_nf

/-- Witness for C7 at a concrete input: severity 1, elapsed 864000 s (240 h),
vibration base 7 and temperature base 50 become exactly 22 and 80. -/
theorem bearing_wear_terms_witness :
    lookupVal
      (BearingWearFailure.apply 1 864000
        [(SensorName.vibration_vel_mm_s, (7 : ℝ)), (SensorName.bearing_temp_c, (50 : ℝ))])
      SensorName.vibration_vel_mm_s = some (7 + 15 * 1) ∧
    lookupVal
      (BearingWearFailure.apply 1 864000
        [(SensorName.vibration_vel_mm_s, (7 : ℝ)), (SensorName.bearing_temp_c, (50 : ℝ))])
      SensorName.bearing_temp_c = some (50 + 30 * 1) :=
  (bearing_wear_terms 1 864000
      [(SensorName.vibration_vel_mm_s, (7 : ℝ)), (SensorName.bearing_temp_c, (50 : ℝ))]
      7 50 rfl rfl).1
    (by norm_num)

/-- `sensor_configs['pump']`. -/
def pump_config : List (SensorName × SensorParams) :=
  [(SensorName.vibration_vel_mm_s, ⟨5, 0.5, 0, 50⟩),
    (SensorName.bearing_temp_c, ⟨60, 2, 20, 120⟩),
    (SensorName.motor_current_a, ⟨75, 3, 0, 150⟩),
    (SensorName.discharge_pressure_bar, ⟨15, 1, 0, 30⟩),
    (SensorName.ambient_temp_c, ⟨25, 2, 10, 40⟩)]

/-- `sensor_configs['compressor']`. -/
def compressor_config : List (SensorName × SensorParams) :=
  [(SensorName.vibration_vel_mm_s, ⟨8, 1, 0, 50⟩),
    (SensorName.bearing_temp_c, ⟨80, 3, 30, 130⟩),
    (SensorName.motor_current_a, ⟨90, 5, 0, 200⟩),
    (SensorName.discharge_pressure_bar, ⟨25, 2, 0, 50⟩),
    (SensorName.ambient_temp_c, ⟨25, 2, 10, 40⟩)]

/-- `sensor_configs['motor']`. -/
def motor_config : List (SensorName × SensorParams) :=
  [(SensorName.vibration_vel_mm_s, ⟨3, 0.3, 0, 30⟩),
    (SensorName.bearing_temp_c, ⟨70, 2, 25, 110⟩),
    (SensorName.motor_current_a, ⟨60, 3, 0, 120⟩),
    (SensorName.ambient_temp_c, ⟨25, 2, 10, 40⟩)]

/-- `sensor_configs['fan']`. -/
def fan_config : List (SensorName × SensorParams) :=
  [(SensorName.vibration_vel_mm_s, ⟨4, 0.5, 0, 25⟩),
    (SensorName.bearing_temp_c, ⟨50, 2, 20, 90⟩),
    (SensorName.motor_current_a, ⟨45, 2, 0, 100⟩),
    (SensorName.ambient_temp_c, ⟨25, 2, 10, 40⟩)]

/-- `asset_class.lower()`: lower-case the string character by character
(structurally, so that it evaluates). -/
def pyLower (s : String) : String := ⟨s.data.map Char.toLower⟩

/-- `self.sensor_configs.get(asset_class.lower(), self.sensor_configs['pump'])`:
unknown classes silently fall back to the pump profile. -/
def sensorConfigFor (asset_class : String) : List (SensorName × SensorParams) :=
  if pyLower asset_class = "pump" then pump_config
  else if pyLower asset_class = "compressor" then compressor_config
  else if pyLower asset_class = "motor" then motor_config
  else if pyLower asset_class = "fan" then fan_config
  else pump_config

/-- Lookup in the static sensor table. -/
def lookupSpec : List (SensorName × SensorParams) → SensorName → Option SensorParams
  | [], _ => none
  | p :: rest, k => if p.1 = k then some p.2 else lookupSpec rest k

/-- Python's `%` on numbers (result has the sign of the divisor):
`a - b * floor(a / b)`. -/
def qmod (a b : ℚ) : ℚ := a - b * (⌊a / b⌋ : ℚ)

/-- `daily_factor = 1 + 0.1 * sin(2 * pi * hour_of_day / 24)` with
`hour_of_day = (timestamp % (24 * 3600)) / 3600`. -/
noncomputable def daily_factor (timestamp : ℚ) : ℝ :=
  1 + 0.1 * Real.sin (2 * Real.pi * ((qmod timestamp (24 * 3600) / 3600 : ℚ) : ℝ) / 24)

/-- `weekly_factor = 1 + 0.05 * sin(2 * pi * day_of_week / 7)` with
`day_of_week = (timestamp % (7 * 24 * 3600)) / (24 * 3600)`. -/
noncomputable def weekly_factor (timestamp : ℚ) : ℝ :=
  1 + 0.05 * Real.sin
    (2 * Real.pi * ((qmod timestamp (7 * 24 * 3600) / (24 * 3600) : ℚ) : ℝ) / 7)

/-- `generate_base_values`: cyclical base signal for every sensor of the asset
class, plus the Gaussian draw `noise s`, clamped into the sensor's range.
The per-sensor Gaussian draws of the call are the oracle `noise`. -/
noncomputable def generate_base_values (noise : SensorName → ℝ)
    (asset_class : String) (timestamp : ℚ) : BaseValues :=
  let config := sensorConfigFor asset_class
  config.map (fun p =>
    let base_value : ℝ := (p.2.base : ℝ) * daily_factor timestamp * weekly_factor timestamp
    let value : ℝ := base_value + noise p.1
    (p.1, max (p.2.rangeMin : ℝ) (min (p.2.rangeMax : ℝ) value)))

/-- The generated value for sensor `s` of class `asset_class` lies in that
sensor's configured inclusive range. -/
def inRange (asset_class : String) (s : SensorName) (v : ℝ) : Prop :=
  match lookupSpec (sensorConfigFor asset_class) s with
  | some p => (p.rangeMin : ℝ) ≤ v ∧ v ≤ (p.rangeMax : ℝ)
  | none => False

theorem sensorConfigFor_cases (asset_class : String) :
    sensorConfigFor asset_class = pump_config ∨
    sensorConfigFor asset_class = compressor_config ∨
    sensorConfigFor asset_class = motor_config ∨
    sensorConfigFor asset_class = fan_config := by
  unfold sensorConfigFor
  split_ifs <;> simp

theorem config_entries_ok (cfg : List (SensorName × SensorParams))
    (hcfg : cfg = pump_config ∨ cfg = compressor_config ∨
      cfg = motor_config ∨ cfg = fan_config) :
    ∀ p ∈ cfg, lookupSpec cfg p.1 = some p.2 ∧ p.2.rangeMin ≤ p.2.rangeMax := by
  rcases hcfg with h | h | h | h <;> subst h <;> intro p hp <;>
    fin_cases hp <;> exact ⟨rfl, by norm_num⟩

/-- C6: for every asset class, every sensor of that class, every time and
every (finite) Gaussian draw, `generate_base_values` emits a value inside the
sensor's inclusive `[min, max]` range. -/
theorem base_signal_in_range (noise : SensorName → ℝ) (asset_class : String)
    (timestamp : ℚ) :
    (generate_base_values noise asset_class timestamp).Forall
      (fun p => inRange asset_class p.1 p.2) := by
  rw [List.forall_iff_forall_mem]
  intro x hx
  unfold generate_base_values at hx
  simp only [List.mem_map] at hx
  obtain ⟨q, hq, rfl⟩ := hx
  have h := config_entries_ok (sensorConfigFor asset_class)
    (sensorConfigFor_cases asset_class) q hq
  have hle : (q.2.rangeMin : ℝ) ≤ (q.2.rangeMax : ℝ) := by exact_mod_cast h.2
  simp only [inRange, h.1]
  exact ⟨le_max_left _ _, max_le hle (min_le_left _ _)⟩

/-- One emitted data point:
`{'ts': .., 'asset_id': .., 'tag': .., 'value': .., 'q': ..}`;
`ts` is epoch milliseconds, `value` is `None` exactly when nulled out. -/
structure Reading where
  ts : ℤ
  asset_id : String
  tag : SensorName
  value : Option ℝ
  q : Quality

/-- Oracle for the random draws made during generation, indexed by the loop
step `i`: `gauss i s` is the `random.gauss(0, noise)` draw for sensor `s`;
`uniform1 i` / `uniform2 i` are the `random.uniform(0, 5)` and
`random.uniform(-5, 5)` draws a `CavitationFailure` makes at that step;
`corrupt i s` is the outcome of `random.random() < 0.01`; `badChoice i s`
indexes `random.choice(['BAD', 'NO_DATA', 'SUSPECT'])`. -/
structure Rand where
  gauss : ℕ → SensorName → ℝ
  uniform1 : ℕ → ℝ
  uniform2 : ℕ → ℝ
  corrupt : ℕ → SensorName → Bool
  badChoice : ℕ → SensorName → Fin 3

/-- `random.choice(['BAD', 'NO_DATA', 'SUSPECT'])`. -/
def chooseBad : Fin 3 → Quality
  | 0 => Quality.BAD
  | 1 => Quality.NO_DATA
  | 2 => Quality.SUSPECT

/-- Python truthiness of an optional string: `None` and `''` are falsy. -/
def pyTruthyStr : Option String → Bool
  | none => false
  | some s => decide (s ≠ "")

/-- Python truthiness of an optional number: `None` and `0` are falsy. -/
def pyTruthyRat : Option ℚ → Bool
  | none => false
  | some x => decide (x ≠ 0)

/-- `self.failure_modes.get(asset.failure_mode)`. -/
def failure_modes (name : String) : Option FailureModeKind :=
  if name = "bearing_wear" then some FailureModeKind.bearing_wear
  else if name = "misalignment" then some FailureModeKind.misalignment
  else if name = "cavitation" then some FailureModeKind.cavitation
  else none

/-- The failure-mode object constructed before the generation loop:
`if asset.failure_mode and asset.failure_start_hours:` followed by the
dictionary lookup.  An onset of `0` hours is falsy in Python, so it yields
no failure-mode object. -/
def initFailureMode (asset : AssetConfig) : Option FailureModeKind :=
  if pyTruthyStr asset.failure_mode && pyTruthyRat asset.failure_start_hours then
    failure_modes (asset.failure_mode.getD "")
  else none

/-- `asset.failure_start_hours` when present (only read on truthy paths). -/
def fsh0 (asset : AssetConfig) : ℚ := asset.failure_start_hours.getD 0

/-- The in-loop guard `failure_mode and asset.failure_start_hours and
i * interval_seconds >= asset.failure_start_hours * 3600`. -/
def failureActiveAt (asset : AssetConfig) (i : ℕ) (interval_seconds : ℤ) : Bool :=
  ((initFailureMode asset).isSome && pyTruthyRat asset.failure_start_hours) &&
    decide (fsh0 asset * 3600 ≤ (i : ℚ) * (interval_seconds : ℚ))

/-- Python `int(..)` applied to a number: truncation toward zero. -/
def pyInt (q : ℚ) : ℤ := q.num.tdiv (q.den : ℤ)

/-- The sensor dict of one loop step, after the conditional failure-mode
application: `generate_base_values`, then `failure_mode.apply(failure_duration,
base_values)` when the onset guard holds. -/
noncomputable def stepValues (rand : Rand) (asset : AssetConfig) (start_time : ℚ)
    (interval_seconds : ℤ) (i : ℕ) : BaseValues :=
  let unix_timestamp : ℚ := start_time + (i : ℚ) * (interval_seconds : ℚ)
  let base_values :=
    generate_base_values (rand.gauss i) asset.asset_class unix_timestamp
  if failureActiveAt asset i interval_seconds then
    let failure_duration : ℚ := unix_timestamp - (start_time + fsh0 asset * 3600)
    FailureMode.apply (initFailureMode asset) asset.failure_severity
      (rand.uniform1 i) (rand.uniform2 i) ((failure_duration : ℝ)) base_values
  else base_values

/-- The readings of one loop step: one `Reading` per sensor of the step's
dict, with the 1%-probability quality corruption applied per reading and the
value nulled exactly on `NO_DATA`. -/
noncomputable def genStep (rand : Rand) (asset : AssetConfig) (start_time : ℚ)
    (interval_seconds : ℤ) (i : ℕ) : List Reading :=
  let unix_timestamp : ℚ := start_time + (i : ℚ) * (interval_seconds : ℚ)
  (stepValues rand asset start_time interval_seconds i).map (fun p =>
    let quality : Quality :=
      if rand.corrupt i p.1 then chooseBad (rand.badChoice i p.1) else Quality.GOOD
    let value : Option ℝ := if quality = Quality.NO_DATA then none else some p.2
    { ts := pyInt (unix_timestamp * 1000), asset_id := asset.asset_id,
      tag := p.1, value := value, q := quality })

/-- One iteration of `generate_asset_data`'s loop: append the step's readings;
the progress-log line then evaluates `i % (total_points // 10)`, which raises
`ZeroDivisionError` whenever `total_points // 10 == 0`. -/
noncomputable def genAccum (rand : Rand) (asset : AssetConfig) (start_time : ℚ)
    (interval_seconds : ℤ) (total_points : ℤ)
    (acc : Except String (List Reading)) (i : ℕ) : Except String (List Reading) :=
  Except.bind acc (fun pts =>
    if Int.fdiv total_points 10 = 0 then
      Except.error "ZeroDivisionError: integer division or modulo by zero"
    else
      Except.ok (pts ++ genStep rand asset start_time interval_seconds i))

/-- `generate_asset_data(asset, start_time, duration_hours, interval_seconds)`.
`total_points = duration_hours * 3600 // interval_seconds` (Python floor
division) raises `ZeroDivisionError` on a zero interval, and the loop body can
raise from the progress-log line (see `genAccum`). -/
noncomputable def generate_asset_data (rand : Rand) (asset : AssetConfig)
    (start_time : ℚ) (duration_hours interval_seconds : ℤ) :
    Except String (List Reading) :=
  if interval_seconds = 0 then
    Except.error "ZeroDivisionError: integer division or modulo by zero"
  else
    let total_points := Int.fdiv (duration_hours * 3600) interval_seconds
    (List.range total_points.toNat).foldl
      (genAccum rand asset start_time interval_seconds total_points)
      (Except.ok [])

/-- The readings a generation call emits (none when it raised). -/
def okD (e : Except String (List Reading)) : List Reading :=
  match e with
  | Except.ok l => l
  | Except.error _ => []

/-- A healthy demo pump (`PLANT1_PUMP_SULZER_001` in `create_demo_assets`). -/
noncomputable def demoPump : AssetConfig :=
  { asset_id := "PLANT1_PUMP_SULZER_001"
    plant := "PLANT1"
    asset_class := "PUMP"
    vendor := "SULZER" }

/-- The healthy demo pump reconfigured with `failure_mode='bearing_wear'`,
onset `0` hours and severity `1.0` (end-to-end scenario B of the spec). -/
noncomputable def bw0Pump : AssetConfig :=
  { demoPump with
    failure_mode := some "bearing_wear"
    failure_start_hours := some 0
    failure_severity := 1 }

/-- The demo pump with developing bearing wear
(`PLANT1_PUMP_SULZER_003`, onset 120 h, severity 0.8). -/
noncomputable def bwDemo : AssetConfig :=
  { asset_id := "PLANT1_PUMP_SULZER_003"
    plant := "PLANT1"
    asset_class := "PUMP"
    vendor := "SULZER"
    failure_mode := some "bearing_wear"
    failure_start_hours := some 120
    failure_severity := 0.8 }

/-- C1: with `duration_hours = 1` and `interval_seconds = 3600` the loop has
`total_points = 1`, so the progress-log line computes `i % (1 // 10) = i % 0`
and the whole generation call raises `ZeroDivisionError` instead of returning
the five pump readings. -/
theorem single_sample_run_crashes (rand : Rand) (start_time : ℚ) :
    generate_asset_data rand demoPump start_time 1 3600 =
      Except.error "ZeroDivisionError: integer division or modulo by zero" := rfl

/-- C2: an onset of `0` hours is falsy in Python, so for
`failure_mode='bearing_wear', onset=0h` the guard
`if asset.failure_mode and asset.failure_start_hours:` never constructs the
failure model: generation is identical to the healthy pump at every duration
and interval, and no `+15`/`+30` offsets are ever applied. -/
theorem onset_zero_never_applied (rand : Rand) (start_time : ℚ)
    (duration_hours interval_seconds : ℤ) :
    generate_asset_data rand bw0Pump start_time duration_hours interval_seconds =
      generate_asset_data rand demoPump start_time duration_hours interval_seconds := rfl

theorem foldl_genAccum_error (rand : Rand) (asset : AssetConfig) (st : ℚ)
    (is T : ℤ) (e : String) (l : List ℕ) :
    l.foldl (genAccum rand asset st is T) (Except.error e) = Except.error e := by
  induction l with
  | nil => rfl
  | cons i l ih => simpa [List.foldl, genAccum, Except.bind] using ih

theorem foldl_genAccum_ok (rand : Rand) (asset : AssetConfig) (st : ℚ)
    (is T : ℤ) (hT : Int.fdiv T 10 ≠ 0) (l : List ℕ) :
    ∀ acc : List Reading,
      l.foldl (genAccum rand asset st is T) (Except.ok acc) =
        Except.ok (acc ++ l.flatMap (genStep rand asset st is)) := by
  induction l with
  | nil => intro acc; simp
  | cons i l ih =>
      intro acc
      have h1 : genAccum rand asset st is T (Except.ok acc) i =
          Except.ok (acc ++ genStep rand asset st is i) := by
        simp [genAccum, Except.bind, hT]
      simp [List.foldl, h1, ih, List.flatMap_cons, List.append_assoc]

/-- The emitted readings of a generation call are either nothing (the call
raised) or the concatenation of the per-step readings. -/
theorem okD_generate (rand : Rand) (asset : AssetConfig) (st : ℚ) (dh is : ℤ) :
    okD (generate_asset_data rand asset st dh is) = [] ∨
    okD (generate_asset_data rand asset st dh is) =
      (List.range (Int.fdiv (dh * 3600) is).toNat).flatMap
        (genStep rand asset st is) := by
  by_cases hz : is = 0
  · left; simp [generate_asset_data, hz, okD]
  · by_cases hT : Int.fdiv (Int.fdiv (dh * 3600) is) 10 = 0
    · cases hr : List.range (Int.fdiv (dh * 3600) is).toNat with
      | nil =>
          right
          simp [generate_asset_data, hz, hr, okD]
      | cons i l =>
          left
          have h0 : genAccum rand asset st is (Int.fdiv (dh * 3600) is)
              (Except.ok []) i =
              Except.error "ZeroDivisionError: integer division or modulo by zero" := by
            simp [genAccum, Except.bind, hT]
          simp [generate_asset_data, hz, hr, okD, List.foldl, h0,
            foldl_genAccum_error]
    · right
      simp [generate_asset_data, hz, okD, foldl_genAccum_ok rand asset st is _ hT]

theorem genStep_reading_ok (rand : Rand) (asset : AssetConfig) (st : ℚ)
    (is : ℤ) (i : ℕ) :
    (genStep rand asset st is i).Forall
      (fun r => (r.value = none ↔ r.q = Quality.NO_DATA) ∧
        (r.q = Quality.NO_DATA ∨ ∃ v : ℝ, r.value = some v ∧
          (r.tag, v) ∈ stepValues rand asset st is i)) := by
  rw [List.forall_iff_forall_mem]
  intro r hr
  unfold genStep at hr
  simp only [List.mem_map] at hr
  obtain ⟨p, hp, rfl⟩ := hr
  by_cases hq :
      (if rand.corrupt i p.1 then chooseBad (rand.badChoice i p.1)
        else Quality.GOOD) = Quality.NO_DATA
  · constructor
    · simp [hq]
    · left; simpa using hq
  · constructor
    · simp [hq]
    · right
      exact ⟨p.2, by simp [hq], by simpa using hp⟩

/-- C3: every `Reading` the generator emits has an absent value exactly when
its quality is `NO_DATA`; with any other quality the reading carries the
generated (possibly failure-adjusted) numeric value of its sensor unchanged. -/
theorem quality_value_invariant (rand : Rand) (asset : AssetConfig) (st : ℚ)
    (dh is : ℤ) :
    (okD (generate_asset_data rand asset st dh is)).Forall
      (fun r => (r.value = none ↔ r.q = Quality.NO_DATA) ∧
        (r.q = Quality.NO_DATA ∨ ∃ i' : ℕ, ∃ v : ℝ, r.value = some v ∧
          (r.tag, v) ∈ stepValues rand asset st is i')) := by
  rcases okD_generate rand asset st dh is with h | h
  · rw [h]; exact trivial
  · rw [h, List.forall_iff_forall_mem]
    intro r hr
    rw [List.mem_flatMap] at hr
    obtain ⟨i', _, hr⟩ := hr
    have hstep := genStep_reading_ok rand asset st is i'
    rw [List.forall_iff_forall_mem] at hstep
    obtain ⟨h1, h2⟩ := hstep r hr
    refine ⟨h1, h2.imp id ?_⟩
    rintro ⟨v, hv, hm⟩
    exact ⟨i', v, hv, hm⟩

/-- A fixed oracle for witnesses: zero Gaussian and uniform draws, every
reading corrupted, and the corruption choice always `NO_DATA`. -/
noncomputable def randNull : Rand :=
  { gauss := fun _ _ => 0
    uniform1 := fun _ => 0
    uniform2 := fun _ => 0
    corrupt := fun _ _ => true
    badChoice := fun _ _ => 1 }

/-- Witness for C3: a concrete emitted reading (all-corrupting oracle, first
step, first pump sensor) realizes the invariant. -/
theorem quality_value_invariant_witness :
    (Reading.mk 0 "PLANT1_PUMP_SULZER_001" SensorName.vibration_vel_mm_s none
        Quality.NO_DATA) ∈
      okD (generate_asset_data randNull demoPump 0 1 360) ∧
    ((Reading.mk 0 "PLANT1_PUMP_SULZER_001" SensorName.vibration_vel_mm_s none
        Quality.NO_DATA).value = none ↔
      (Reading.mk 0 "PLANT1_PUMP_SULZER_001" SensorName.vibration_vel_mm_s none
        Quality.NO_DATA).q = Quality.NO_DATA) := by
  have hh : (okD (generate_asset_data randNull demoPump 0 1 360)).head? =
      some (Reading.mk 0 "PLANT1_PUMP_SULZER_001" SensorName.vibration_vel_mm_s
        none Quality.NO_DATA) := by with_unfolding_all rfl
  have hmem :
      (Reading.mk 0 "PLANT1_PUMP_SULZER_001" SensorName.vibration_vel_mm_s none
          Quality.NO_DATA) ∈
        okD (generate_asset_data randNull demoPump 0 1 360) :=
    List.mem_of_mem_head? (Option.mem_def.mpr hh)
  have hf := quality_value_invariant randNull demoPump 0 1 360
  rw [List.forall_iff_forall_mem] at hf
  exact ⟨hmem, (hf _ hmem).1⟩

theorem daily_factor_bounds (timestamp : ℚ) :
    0.9 ≤ daily_factor timestamp ∧ daily_factor timestamp ≤ 1.1 := by
  have h1 := Real.neg_one_le_sin
    (2 * Real.pi * ((qmod timestamp (24 * 3600) / 3600 : ℚ) : ℝ) / 24)
  have h2 := Real.sin_le_one
    (2 * Real.pi * ((qmod timestamp (24 * 3600) / 3600 : ℚ) : ℝ) / 24)
  unfold daily_factor
  constructor <;> nlinarith

theorem weekly_factor_bounds (timestamp : ℚ) :
    0.95 ≤ weekly_factor timestamp ∧ weekly_factor timestamp ≤ 1.05 := by
  have h1 := Real.neg_one_le_sin
    (2 * Real.pi * ((qmod timestamp (7 * 24 * 3600) / (24 * 3600) : ℚ) : ℝ) / 7)
  have h2 := Real.sin_le_one
    (2 * Real.pi * ((qmod timestamp (7 * 24 * 3600) / (24 * 3600) : ℚ) : ℝ) / 7)
  unfold weekly_factor
  constructor <;> nlinarith

theorem lookupVal_map_pairs (L : List (SensorName × SensorParams))
    (V : SensorName × SensorParams → ℝ) (s : SensorName) (q : SensorParams)
    (h : L.find? (fun p => decide (p.1 = s)) = some (s, q)) :
    lookupVal (L.map (fun p => (p.1, V p))) s = some (V (s, q)) := by
  induction L with
  | nil => simp at h
  | cons p rest ih =>
      obtain ⟨a, b⟩ := p
      by_cases hp : a = s
      · subst hp
        rw [List.find?_cons_of_pos _ (by simp)] at h
        simp only [Option.some.injEq, Prod.mk.injEq, true_and] at h
        subst h
        simp [lookupVal]
      · rw [List.find?_cons_of_neg _ (by simp [hp])] at h
        simpa [lookupVal, hp] using ih h

/-- The value `generate_base_values` assigns to sensor `s`, via the sensor's
table entry. -/
theorem lookupVal_generate_base_values (noise : SensorName → ℝ)
    (asset_class : String) (timestamp : ℚ) (s : SensorName) (q : SensorParams)
    (h : (sensorConfigFor asset_class).find? (fun p => decide (p.1 = s)) = some (s, q)) :
    lookupVal (generate_base_values noise asset_class timestamp) s =
      some (max (q.rangeMin : ℝ) (min (q.rangeMax : ℝ)
        ((q.base : ℝ) * daily_factor timestamp * weekly_factor timestamp + noise s))) := by
  unfold generate_base_values
  exact lookupVal_map_pairs _ _ s q h

theorem find?_map_reading (M : BaseValues) (f : SensorName × ℝ → Reading)
    (hf : ∀ p, (f p).tag = p.1) (s : SensorName) :
    (M.map f).find? (fun r => decide (r.tag = s)) =
      (M.find? (fun p => decide (p.1 = s))).map f := by
  induction M with
  | nil => rfl
  | cons p rest ih =>
      by_cases hp : p.1 = s
      · rw [List.map_cons, List.find?_cons_of_pos _ (by simp [hf, hp]),
          List.find?_cons_of_pos _ (by simp [hp])]
        rfl
      · rw [List.map_cons, List.find?_cons_of_neg _ (by simp [hf, hp]),
          List.find?_cons_of_neg _ (by simp [hp]), ih]

theorem find?_of_lookupVal (M : BaseValues) (s : SensorName) (v : ℝ)
    (h : lookupVal M s = some v) :
    M.find? (fun p => decide (p.1 = s)) = some (s, v) := by
  induction M with
  | nil => simp [lookupVal] at h
  | cons p rest ih =>
      obtain ⟨a, b⟩ := p
      by_cases hp : a = s
      · subst hp
        have hb : b = v := by simpa [lookupVal] using h
        subst hb
        rw [List.find?_cons_of_pos _ (by simp)]
      · simp only [lookupVal, if_neg hp] at h
        rw [List.find?_cons_of_neg _ (by simp [hp])]
        exact ih h

/-- C10: the range clamp happens only inside `generate_base_values`, before the
failure model runs, and the failure-adjusted value is emitted with no
re-clamping.  Concretely, for the demo asset `PLANT1_PUMP_SULZER_003`
(bearing wear, onset 120 h, severity 0.8), at step 120 of an hourly run with a
large positive temperature noise draw, the emitted `bearing_temp_c` value is
exactly `128`, strictly above the sensor's configured maximum of `120`. -/
theorem no_reclamp_after_failure (st : ℚ) (rand : Rand)
    (hg : rand.gauss 120 SensorName.bearing_temp_c = 1000)
    (hc : rand.corrupt 120 SensorName.bearing_temp_c = false) :
    ((genStep rand bwDemo st 3600 120).find?
        (fun r => decide (r.tag = SensorName.bearing_temp_c))).map Reading.value
      = some (some 128) ∧
    lookupSpec (sensorConfigFor bwDemo.asset_class) SensorName.bearing_temp_c
      = some ⟨60, 2, 20, 120⟩ ∧
    ((120 : ℝ) < 128) := by
  refine ⟨?_, rfl, by norm_num⟩
  have hcfg : sensorConfigFor bwDemo.asset_class = pump_config := rfl
  have hfind : (sensorConfigFor bwDemo.asset_class).find?
      (fun p => decide (p.1 = SensorName.bearing_temp_c)) =
      some (SensorName.bearing_temp_c, ⟨60, 2, 20, 120⟩) := rfl
  -- the base (clamped) temperature value of step 120
  have hbase := lookupVal_generate_base_values (rand.gauss 120) bwDemo.asset_class
    (st + (120 : ℕ) * ((3600 : ℤ) : ℚ)) SensorName.bearing_temp_c ⟨60, 2, 20, 120⟩ hfind
  rw [hg] at hbase
  set D := daily_factor (st + (120 : ℕ) * ((3600 : ℤ) : ℚ)) with hD
  set W := weekly_factor (st + (120 : ℕ) * ((3600 : ℤ) : ℚ)) with hW
  have hDb := daily_factor_bounds (st + (120 : ℕ) * ((3600 : ℤ) : ℚ))
  have hWb := weekly_factor_bounds (st + (120 : ℕ) * ((3600 : ℤ) : ℚ))
  rw [← hD] at hDb
  rw [← hW] at hWb
  have hX : (120 : ℝ) ≤ (((60 : ℚ) : ℝ)) * D * W + 1000 := by
    have hD0 : (0 : ℝ) ≤ D := by linarith [hDb.1]
    have hW0 : (0 : ℝ) ≤ W := by linarith [hWb.1]
    have : (0 : ℝ) ≤ (((60 : ℚ) : ℝ)) * D * W := by positivity
    linarith
  have hclamp :
      max (((20 : ℚ) : ℝ)) (min (((120 : ℚ) : ℝ)) ((((60 : ℚ) : ℝ)) * D * W + 1000))
        = (120 : ℝ) := by
    have h120 : ((120 : ℚ) : ℝ) = (120 : ℝ) := by norm_num
    have h20 : ((20 : ℚ) : ℝ) = (20 : ℝ) := by norm_num
    rw [h120, h20, min_eq_left hX, max_eq_right (by norm_num : (20 : ℝ) ≤ 120)]
  -- the step applies the bearing-wear model with elapsed time 0 since onset
  have hact : failureActiveAt bwDemo 120 3600 = true := by with_unfolding_all rfl
  have hinit : initFailureMode bwDemo = some FailureModeKind.bearing_wear := by
    with_unfolding_all rfl
  have hfd : (st + (120 : ℕ) * ((3600 : ℤ) : ℚ)) - (st + fsh0 bwDemo * 3600) = 0 := by
    have : fsh0 bwDemo = (120 : ℚ) := rfl
    rw [this]
    push_cast
    ring
  have hsv : stepValues rand bwDemo st 3600 120 =
      BearingWearFailure.apply bwDemo.failure_severity ((0 : ℚ) : ℝ)
        (generate_base_values (rand.gauss 120) bwDemo.asset_class
          (st + (120 : ℕ) * ((3600 : ℤ) : ℚ))) := by
    unfold stepValues
    rw [hact, if_pos rfl, hinit, hfd]
    rfl
  -- the adjusted temperature value
  have hTadj : lookupVal (stepValues rand bwDemo st 3600 120)
      SensorName.bearing_temp_c = some (128 : ℝ) := by
    rw [hsv]
    unfold BearingWearFailure.apply
    rw [lookupVal_updateVal_same,
      lookupVal_updateVal_other _ _ _ _ (by decide), hbase]
    simp only [Option.map_some, Option.some.injEq]
    rw [hclamp]
    have hsev : bwDemo.failure_severity = (0.8 : ℝ) := rfl
    have hz : ((0 : ℚ) : ℝ) / 3600 / 240 = 0 := by norm_num
    rw [hsev, hz, min_eq_right (by norm_num : (0 : ℝ) ≤ 1)]
    norm_num
  -- from dict entry to emitted reading
  unfold genStep
  rw [find?_map_reading _ _ (fun p => rfl), find?_of_lookupVal _ _ _ hTadj]
  simp [hc]

/-- Witness oracle for C10: large positive Gaussian draws, no quality
corruption. -/
noncomputable def randHot : Rand :=
  { gauss := fun _ _ => 1000
    uniform1 := fun _ => 0
    uniform2 := fun _ => 0
    corrupt := fun _ _ => false
    badChoice := fun _ _ => 0 }

/-- Witness for C10 at a concrete input. -/
theorem no_reclamp_after_failure_witness :
    ((genStep randHot bwDemo 0 3600 120).find?
        (fun r => decide (r.tag = SensorName.bearing_temp_c))).map Reading.value
      = some (some 128) ∧
    ((120 : ℝ) < 128) := by
  obtain ⟨h1, -, h3⟩ := no_reclamp_after_failure 0 randHot rfl rfl
  exact ⟨h1, h3⟩

/-- `publish_to_kafka`'s per-record loop: `producer.produce` runs inside
`try/except Exception`, so a failing record is logged and skipped and the loop
continues with the next record.  `pubOk i` says whether producing the `i`-th
record succeeds; the result is the list of successfully produced records, in
order.  The function is total: no failure aborts it. -/
def bulkProduce (pubOk : ℕ → Bool) : List Reading → ℕ → List Reading
  | [], _ => []
  | r :: rs, i =>
      if pubOk i then r :: bulkProduce pubOk rs (i + 1)
      else bulkProduce pubOk rs (i + 1)

/-- `publish_to_kafka(data_points, topic)`: bulk delivery. -/
def publish_to_kafka (pubOk : ℕ → Bool) (data_points : List Reading) :
    List Reading :=
  bulkProduce pubOk data_points 0

/-- Truthiness of `last_ts` in `if last_ts:`—`None` before the first send,
and a timestamp equal to `0` is also falsy. -/
def tsTruthy : Option ℤ → Bool
  | none => false
  | some l => decide (l ≠ 0)

/-- The sleep performed before sending a record in real-time mode:
`sleep_time = (data_point['ts'] - last_ts) / 1000` (seconds, exact), and
`time.sleep(min(sleep_time, 60))` guarded by `if last_ts:` and
`if sleep_time > 0:`. -/
def sleep_for (last_ts : Option ℤ) (ts : ℤ) : ℚ :=
  if tsTruthy last_ts then
    let sleep_time : ℚ := ((ts : ℚ) - ((last_ts.getD 0 : ℤ) : ℚ)) / 1000
    if 0 < sleep_time then min sleep_time 60 else 0
  else 0

/-- The real-time publishing loop over the (already sorted) record list.
`producer.produce` is not wrapped in `try/except` on this path, so a failing
produce call (`pubOk i = false`) raises and aborts the remaining deliveries.
On success every record is returned paired with the sleep performed before
its send. -/
def realtimeProduce (pubOk : ℕ → Bool) :
    List Reading → ℕ → Option ℤ → Except String (List (Reading × ℚ))
  | [], _, _ => Except.ok []
  | r :: rs, i, last_ts =>
      let s := sleep_for last_ts r.ts
      if pubOk i then
        Except.map (fun rest => (r, s) :: rest)
          (realtimeProduce pubOk rs (i + 1) (some r.ts))
      else Except.error "KafkaException: produce failed"

instance : DecidableRel (fun a b : Reading => a.ts ≤ b.ts) :=
  fun a b => Int.decLe a.ts b.ts

/-- `all_data_points.sort(key=lambda x: x['ts'])`: stable sort by timestamp
ascending. -/
def sortByTs (pts : List Reading) : List Reading :=
  pts.insertionSort (fun a b => a.ts ≤ b.ts)

/-- The per-asset generation loop of `main`; asset number `i` draws from the
oracle `randFor i`.  An exception from `generate_asset_data` is uncaught and
aborts the whole run. -/
noncomputable def fleetGenerate (randFor : ℕ → Rand) (start_time : ℚ)
    (duration_hours interval_seconds : ℤ) :
    List AssetConfig → ℕ → Except String (List Reading)
  | [], _ => Except.ok []
  | a :: rest, i =>
      Except.bind
        (generate_asset_data (randFor i) a start_time duration_hours interval_seconds)
        (fun d => Except.map (fun ds => d ++ ds)
          (fleetGenerate randFor start_time duration_hours interval_seconds rest (i + 1)))

/-- `main` after argument parsing, on the Kafka output path: generate for
every configured asset, then deliver in bulk or real-time-paced mode.  The
result is the list of delivered records.  Note: `main` performs no validation
of the asset list, the duration or the interval. -/
noncomputable def fleetRun (randFor : ℕ → Rand) (pubOk : ℕ → Bool)
    (real_time : Bool) (assets : List AssetConfig) (start_time : ℚ)
    (duration_hours interval_seconds : ℤ) : Except String (List Reading) :=
  Except.bind
    (fleetGenerate randFor start_time duration_hours interval_seconds assets 0)
    (fun all_data_points =>
      if real_time then
        Except.map (fun l => l.map Prod.fst)
          (realtimeProduce pubOk (sortByTs all_data_points) 0 none)
      else Except.ok (publish_to_kafka pubOk all_data_points))

theorem fdiv_nonpos_of_nonpos_of_pos {a b : ℤ} (ha : a ≤ 0) (hb : 0 < b) :
    a.fdiv b ≤ 0 := by
  rw [Int.fdiv_eq_ediv _ (le_of_lt hb)]
  by_contra h
  push_neg at h
  have h1 : (1 : ℤ) ≤ a / b := h
  have h2 := (Int.le_ediv_iff_mul_le hb).mp h1
  omega

theorem generate_empty_of_nonpos (rand : Rand) (asset : AssetConfig)
    (st : ℚ) (dh is : ℤ) (hz : is ≠ 0)
    (h : Int.fdiv (dh * 3600) is ≤ 0) :
    generate_asset_data rand asset st dh is = Except.ok [] := by
  unfold generate_asset_data
  rw [if_neg hz]
  have ht : (Int.fdiv (dh * 3600) is).toNat = 0 := Int.toNat_of_nonpos h
  simp [ht]

theorem fleetGenerate_empty (randFor : ℕ → Rand) (st : ℚ) (dh is : ℤ)
    (hz : is ≠ 0) (h : Int.fdiv (dh * 3600) is ≤ 0) (assets : List AssetConfig) :
    ∀ i : ℕ, fleetGenerate randFor st dh is assets i = Except.ok [] := by
  induction assets with
  | nil => intro i; rfl
  | cons a rest ih =>
      intro i
      unfold fleetGenerate
      rw [generate_empty_of_nonpos _ _ _ _ _ hz h, ih (i + 1)]
      rfl

theorem fleetRun_deliver_nil (randFor : ℕ → Rand) (pubOk : ℕ → Bool)
    (rt : Bool) (assets : List AssetConfig) (st : ℚ) (dh is : ℤ)
    (h : fleetGenerate randFor st dh is assets 0 = Except.ok []) :
    fleetRun randFor pubOk rt assets st dh is = Except.ok [] := by
  unfold fleetRun
  rw [h]
  cases rt <;> rfl

/-- C4 counterexample: a zero duration with a positive interval and a
nonempty asset list is not rejected — the run completes normally and delivers
zero readings instead of aborting before generation. -/
theorem no_validation_counterexample :
    fleetRun (fun _ => randNull) (fun _ => true) false [demoPump] 0 0 5 =
      Except.ok [] := rfl

/-- C4 (amended): `main` validates nothing.  An empty asset list, a
non-positive duration with positive interval, or a negative interval with
non-negative duration all complete normally with zero readings delivered;
only a zero interval aborts the run, via an uncaught `ZeroDivisionError`
raised in the first asset's generation call, before any reading is emitted. -/
theorem no_validation (randFor : ℕ → Rand) (pubOk : ℕ → Bool) (rt : Bool)
    (st : ℚ) :
    (∀ dh is : ℤ, fleetRun randFor pubOk rt [] st dh is = Except.ok []) ∧
    (∀ (a : AssetConfig) (rest : List AssetConfig) (dh is : ℤ),
      dh ≤ 0 → 0 < is →
      fleetRun randFor pubOk rt (a :: rest) st dh is = Except.ok []) ∧
    (∀ (a : AssetConfig) (rest : List AssetConfig) (dh is : ℤ),
      0 ≤ dh → is < 0 →
      fleetRun randFor pubOk rt (a :: rest) st dh is = Except.ok []) ∧
    (∀ (a : AssetConfig) (rest : List AssetConfig) (dh : ℤ),
      fleetRun randFor pubOk rt (a :: rest) st dh 0 =
        Except.error "ZeroDivisionError: integer division or modulo by zero") := by
  refine ⟨?_, ?_, ?_, ?_⟩
  · intro dh is
    exact fleetRun_deliver_nil _ _ _ _ _ _ _ rfl
  · intro a rest dh is hdh his
    refine fleetRun_deliver_nil _ _ _ _ _ _ _ ?_
    refine fleetGenerate_empty _ _ _ _ (by omega) ?_ _ 0
    exact fdiv_nonpos_of_nonpos_of_pos (by omega) his
  · intro a rest dh is hdh his
    refine fleetRun_deliver_nil _ _ _ _ _ _ _ ?_
    refine fleetGenerate_empty _ _ _ _ (by omega) ?_ _ 0
    exact Int.fdiv_nonpos (by omega) (by omega)
  · intro a rest dh
    unfold fleetRun fleetGenerate generate_asset_data
    rfl

/-- Witness for C4 (amended) at concrete inputs: duration `-2` with interval
`5` completes with nothing delivered; interval `0` aborts with the division
error. -/
theorem no_validation_witness :
    fleetRun (fun _ => randNull) (fun _ => true) false [demoPump] 0 (-2) 5 =
      Except.ok [] ∧
    fleetRun (fun _ => randNull) (fun _ => true) false [demoPump] 0 168 0 =
      Except.error "ZeroDivisionError: integer division or modulo by zero" :=
  ⟨(no_validation (fun _ => randNull) (fun _ => true) false 0).2.1 demoPump []
      (-2) 5 (by norm_num) (by norm_num),
    (no_validation (fun _ => randNull) (fun _ => true) false 0).2.2.2 demoPump [] 168⟩

def readingA : Reading :=
  { ts := 1000
    asset_id := "A1"
    tag := SensorName.vibration_vel_mm_s
    value := none
    q := Quality.NO_DATA }

def readingB : Reading :=
  { ts := 61000
    asset_id := "A1"
    tag := SensorName.vibration_vel_mm_s
    value := none
    q := Quality.NO_DATA }

/-- C5 counterexample: with the first produce call failing, bulk mode catches
the error and still delivers the second record, while real-time paced mode
propagates the exception and aborts, delivering nothing. -/
theorem publish_error_policy_counterexample :
    publish_to_kafka (fun i => decide (i ≠ 0)) [readingA, readingB] =
      [readingB] ∧
    realtimeProduce (fun i => decide (i ≠ 0)) [readingA, readingB] 0 none =
      Except.error "KafkaException: produce failed" :=
  ⟨rfl, rfl⟩

/-- C5 (amended): in bulk mode a per-record publish error is caught and
logged and every remaining record is still attempted (the delivered records
are exactly those whose produce call succeeds); in real-time paced mode the
produce call is not guarded, so a single failure raises and aborts the rest
of the delivery. -/
theorem publish_error_policy :
    (∀ (pubOk : ℕ → Bool) (pts : List Reading) (i : ℕ),
      bulkProduce pubOk pts i =
        ((List.enumFrom i pts).filter (fun p => pubOk p.1)).map Prod.snd) ∧
    (∀ (pubOk : ℕ → Bool) (r : Reading) (rs : List Reading) (i : ℕ)
      (last_ts : Option ℤ), pubOk i = false →
      realtimeProduce pubOk (r :: rs) i last_ts =
        Except.error "KafkaException: produce failed") := by
  constructor
  · intro pubOk pts
    induction pts with
    | nil => intro i; rfl
    | cons r rs ih =>
        intro i
        by_cases h : pubOk i
        · simp [bulkProduce, h, List.enumFrom, ih]
        · simp [bulkProduce, h, List.enumFrom, ih]
  · intro pubOk r rs i last_ts h
    simp [realtimeProduce, h]

/-- Witness for C5 (amended) at a concrete input. -/
theorem publish_error_policy_witness :
    bulkProduce (fun i => decide (i ≠ 0)) [readingA, readingB] 0 =
      ((List.enumFrom 0 [readingA, readingB]).filter
        (fun p => (fun i => decide (i ≠ 0)) p.1)).map Prod.snd ∧
    realtimeProduce (fun i => decide (i ≠ 0)) [readingA, readingB] 0 none =
      Except.error "KafkaException: produce failed" :=
  ⟨publish_error_policy.1 (fun i => decide (i ≠ 0)) [readingA, readingB] 0,
    publish_error_policy.2 (fun i => decide (i ≠ 0)) readingA [readingB] 0 none
      (by norm_num)⟩

/-- Wall-clock pacing schedule of the real-time loop: each record paired with
the sleep performed before its send. -/
def paceSchedule : Option ℤ → List Reading → List (Reading × ℚ)
  | _, [] => []
  | last_ts, r :: rs => (r, sleep_for last_ts r.ts) :: paceSchedule (some r.ts) rs

/-- The pacing bound of the claim: the sum over consecutive records of
`min(60, Δts / 1000)`, with the delta taken from the previous delivered
record. -/
def sumMinD : Option ℤ → List Reading → ℚ
  | _, [] => 0
  | last_ts, r :: rs =>
      (match last_ts with
        | none => 0
        | some l => min 60 (((r.ts : ℚ) - ((l : ℤ) : ℚ)) / 1000)) +
        sumMinD (some r.ts) rs

/-- `headTsLe last l`: the previous timestamp is at most the first of `l`. -/
def headTsLe : Option ℤ → List Reading → Prop
  | some l, r :: _ => l ≤ r.ts
  | _, _ => True

theorem realtimeProduce_allOk (pts : List Reading) :
    ∀ (i : ℕ) (last_ts : Option ℤ),
      realtimeProduce (fun _ => true) pts i last_ts =
        Except.ok (paceSchedule last_ts pts) := by
  induction pts with
  | nil => intro i last_ts; rfl
  | cons r rs ih =>
      intro i last_ts
      simp [realtimeProduce, paceSchedule, ih, Except.map]

theorem sleep_for_nonneg (last_ts : Option ℤ) (ts : ℤ) :
    0 ≤ sleep_for last_ts ts := by
  unfold sleep_for
  by_cases h1 : tsTruthy last_ts
  · rw [if_pos h1]
    show (0 : ℚ) ≤
      if 0 < ((ts : ℚ) - ((last_ts.getD 0 : ℤ) : ℚ)) / 1000 then
        min (((ts : ℚ) - ((last_ts.getD 0 : ℤ) : ℚ)) / 1000) 60
      else 0
    by_cases h2 : (0 : ℚ) < ((ts : ℚ) - ((last_ts.getD 0 : ℤ) : ℚ)) / 1000
    · rw [if_pos h2]
      exact le_min (le_of_lt h2) (by norm_num)
    · rw [if_neg h2]
  · rw [if_neg h1]

theorem paceSchedule_fst (l : List Reading) :
    ∀ last_ts : Option ℤ, (paceSchedule last_ts l).map Prod.fst = l := by
  induction l with
  | nil => intro last_ts; rfl
  | cons r rs ih => intro last_ts; simp [paceSchedule, ih]

theorem paceSchedule_nonneg (l : List Reading) :
    ∀ last_ts : Option ℤ,
      ((paceSchedule last_ts l).map Prod.snd).Forall (fun q => 0 ≤ q) := by
  induction l with
  | nil => intro last_ts; exact trivial
  | cons r rs ih =>
      intro last_ts
      simp only [paceSchedule, List.map_cons, List.forall_cons]
      exact ⟨sleep_for_nonneg _ _, ih _⟩

theorem sleep_for_le_min (l t : ℤ) (h : l ≤ t) :
    sleep_for (some l) t ≤ min 60 (((t : ℚ) - ((l : ℤ) : ℚ)) / 1000) := by
  have hd : (0 : ℚ) ≤ ((t : ℚ) - ((l : ℤ) : ℚ)) / 1000 := by
    apply div_nonneg _ (by norm_num)
    rw [sub_nonneg]
    exact_mod_cast h
  by_cases hl : l = 0
  · have hz : sleep_for (some l) t = 0 := by
      simp [sleep_for, tsTruthy, hl]
    rw [hz]
    exact le_min (by norm_num) hd
  · have ht : tsTruthy (some l) = true := by simp [tsTruthy, hl]
    unfold sleep_for
    rw [ht, if_pos rfl]
    simp only [Option.getD_some]
    by_cases h0 : (0 : ℚ) < ((t : ℚ) - ((l : ℤ) : ℚ)) / 1000
    · rw [if_pos h0, min_comm]
    · rw [if_neg h0]
      exact le_min (by norm_num) hd

theorem paceSchedule_sum_le (l : List Reading) :
    ∀ last_ts : Option ℤ, headTsLe last_ts l →
      List.Pairwise (fun a b : Reading => a.ts ≤ b.ts) l →
      ((paceSchedule last_ts l).map Prod.snd).sum ≤ sumMinD last_ts l := by
  induction l with
  | nil => intro last_ts _ _; simp [paceSchedule, sumMinD]
  | cons r rs ih =>
      intro last_ts hhead hpair
      obtain ⟨hr, hrs⟩ := List.pairwise_cons.mp hpair
      have hrest := ih (some r.ts) ?_ hrs
      · have hh : ∀ lt : Option ℤ, headTsLe lt (r :: rs) →
            sleep_for lt r.ts ≤
              (match lt with
                | none => 0
                | some l => min 60 (((r.ts : ℚ) - ((l : ℤ) : ℚ)) / 1000)) := by
          intro lt hlt
          cases lt with
          | none => simp [sleep_for, tsTruthy]
          | some l => exact sleep_for_le_min l r.ts hlt
        simp only [paceSchedule, sumMinD, List.map_cons, List.sum_cons]
        exact add_le_add (hh last_ts hhead) hrest
      · cases rs with
        | nil => exact trivial
        | cons r' rs' => exact hr r' (List.mem_cons_self r' rs')

instance : IsTotal Reading (fun a b => a.ts ≤ b.ts) :=
  ⟨fun a b => Int.le_total a.ts b.ts⟩

instance : IsTrans Reading (fun a b => a.ts ≤ b.ts) :=
  ⟨fun _ _ _ h1 h2 => le_trans h1 h2⟩

def rzero : Reading :=
  { ts := 0
    asset_id := "A1"
    tag := SensorName.vibration_vel_mm_s
    value := none
    q := Quality.NO_DATA }

def rlater : Reading :=
  { ts := 7200000
    asset_id := "A1"
    tag := SensorName.vibration_vel_mm_s
    value := none
    q := Quality.NO_DATA }

/-- C8 counterexample: when the previous record's timestamp is exactly `0`
(falsy in Python), the loop performs no sleep before the next send even
though the claimed formula `min(60, Δts/1000)` evaluates to `60`: the records
`rzero` (ts 0) and `rlater` (ts 7200000) are delivered with sleeps `[0, 0]`. -/
theorem pacing_formula_counterexample :
    (realtimeProduce (fun _ => true) (sortByTs [rzero, rlater]) 0 none).map
        (fun l => l.map Prod.snd) = Except.ok [0, 0] ∧
    min (60 : ℚ) (((rlater.ts : ℚ) - ((rzero.ts : ℤ) : ℚ)) / 1000) = 60 ∧
    ((0 : ℚ) ≠ 60) := by
  refine ⟨rfl, ?_, by norm_num⟩
  have hv : ((rlater.ts : ℚ) - ((rzero.ts : ℤ) : ℚ)) / 1000 = 7200 := by
    norm_num [rlater, rzero]
  rw [hv]
  exact min_eq_left (by norm_num)

/-- C8 (amended): real-time paced delivery sorts the accumulated records by
timestamp ascending and delivers them in that (non-decreasing) order; the
sleep before each send is `min(60, (current.ts - previous.ts)/1000)` whenever
the previous timestamp is nonzero, and `0` when the previous timestamp is `0`
(Python truthiness) or before the first send; no sleep is ever negative, and
the total sleep is at most the sum of `min(60, Δts/1000)` over consecutive
delivered records. -/
theorem realtime_pacing (pts : List Reading) :
    realtimeProduce (fun _ => true) (sortByTs pts) 0 none =
      Except.ok (paceSchedule none (sortByTs pts)) ∧
    List.Pairwise (fun a b : Reading => a.ts ≤ b.ts) (sortByTs pts) ∧
    (sortByTs pts).Perm pts ∧
    (paceSchedule none (sortByTs pts)).map Prod.fst = sortByTs pts ∧
    ((paceSchedule none (sortByTs pts)).map Prod.snd).Forall (fun q => 0 ≤ q) ∧
    ((paceSchedule none (sortByTs pts)).map Prod.snd).sum ≤
      sumMinD none (sortByTs pts) ∧
    (∀ l t : ℤ, l ≠ 0 → l ≤ t →
      sleep_for (some l) t = min 60 (((t : ℚ) - ((l : ℤ) : ℚ)) / 1000)) ∧
    (∀ t : ℤ, sleep_for (some 0) t = 0) := by
  have hsorted : List.Pairwise (fun a b : Reading => a.ts ≤ b.ts) (sortByTs pts) :=
    List.sorted_insertionSort _ pts
  refine ⟨realtimeProduce_allOk _ 0 none, hsorted,
    List.perm_insertionSort _ pts, paceSchedule_fst _ none,
    paceSchedule_nonneg _ none,
    paceSchedule_sum_le _ none trivial hsorted, ?_, ?_⟩
  · intro l t hl hle
    have ht : tsTruthy (some l) = true := by simp [tsTruthy, hl]
    have hd : (0 : ℚ) ≤ ((t : ℚ) - ((l : ℤ) : ℚ)) / 1000 := by
      apply div_nonneg _ (by norm_num)
      rw [sub_nonneg]
      exact_mod_cast hle
    unfold sleep_for
    rw [ht, if_pos rfl]
    simp only [Option.getD_some]
    by_cases h0 : (0 : ℚ) < ((t : ℚ) - ((l : ℤ) : ℚ)) / 1000
    · rw [if_pos h0, min_comm]
    · rw [if_neg h0]
      have : ((t : ℚ) - ((l : ℤ) : ℚ)) / 1000 = 0 := le_antisymm (not_lt.mp h0) hd
      rw [this, min_eq_right (by norm_num : (0 : ℚ) ≤ 60)]
  · intro t
    rfl

/-- Witness for C8 (amended) at concrete inputs. -/
theorem realtime_pacing_witness :
    ((paceSchedule none (sortByTs [readingA, readingB])).map Prod.snd).Forall
      (fun q => 0 ≤ q) ∧
    sleep_for (some 1000) 61000 =
      min 60 ((((61000 : ℤ) : ℚ) - ((1000 : ℤ) : ℚ)) / 1000) :=
  ⟨(realtime_pacing [readingA, readingB]).2.2.2.2.1,
    (realtime_pacing []).2.2.2.2.2.2.1 1000 61000 (by norm_num) (by norm_num)⟩

end SynthGen
